import Mathlib

/-!
Verification of the parameter-encoding layer of the `algoliasearch-rs` client
(`src/index/mod.rs`, `src/index/settings.rs`, `src/client.rs`).

The serde data model is embedded shallowly: a JSON wire value is the inductive
`Json` below, a `Serialize` impl becomes a function `T → Json` (or, for the
url-encoded query-string path, `T → Except String String`), and a
`Deserialize` impl driven by `deserialize_any` becomes a function
`Json → Except String T` that dispatches on the wire shape exactly as the
corresponding serde `Visitor` does.  Error strings reproduce the messages the
visitors produce (`serde::de::Error::custom`, `invalid_type`, `invalid_value`),
without the trailing `at line .. column ..` position suffix that `serde_json`
appends, since the position is a property of the text parser, not of the codec.
-/

namespace Algolia

/-- A JSON wire value.  `num` covers the non-negative integers the codecs use
(`visit_u64`); nothing in the verified layer produces or consumes other
numeric shapes. -/
inductive Json where
  | null
  | bool (b : Bool)
  | num (n : Nat)
  | str (s : String)
  | arr (elems : List Json)
  | obj (members : List (String × Json))

/-- The wire-shape category of a JSON value (the spec's "shape category":
boolean, integer, string, array, object). -/
inductive ShapeCat where
  | nullSh
  | boolSh
  | numSh
  | strSh
  | arrSh
  | objSh
deriving DecidableEq

/-- Shape category of a value. -/
def Json.shapeCat : Json → ShapeCat
  | .null => .nullSh
  | .bool _ => .boolSh
  | .num _ => .numSh
  | .str _ => .strSh
  | .arr _ => .arrSh
  | .obj _ => .objSh

/-- The description serde uses for an unexpected value in `invalid_type` /
`invalid_value` messages (`serde::de::Unexpected`'s `Display`). -/
def Json.unexpectedDesc : Json → String
  | .null => "unit value"
  | .bool b => "boolean `" ++ (if b then "true" else "false") ++ "`"
  | .num n => "integer `" ++ toString n ++ "`"
  | .str s => "string \"" ++ s ++ "\""
  | .arr _ => "sequence"
  | .obj _ => "map"

/-- serde's `invalid_type` error message: the shape the visitor refused,
against the visitor's `expecting` description. -/
def invalidTypeMsg (j : Json) (expecting : String) : String :=
  "invalid type: " ++ j.unexpectedDesc ++ ", expected " ++ expecting

/-- Decode a JSON array's elements as strings, as `seq.next_element::<String>()`
does in a `visit_seq` loop: every element must be a string. -/
def decodeStringList : List Json → Except String (List String)
  | [] => .ok []
  | .str s :: rest => (decodeStringList rest).map (fun l => s :: l)
  | j :: _ => .error (invalidTypeMsg j "a string")

/-! ### AroundRadius (`src/index/mod.rs`, lines 42–100) -/

/-- `enum AroundRadius { All, Radius(u64) }`. -/
inductive AroundRadius where
  | All
  | Radius (v : Nat)
deriving DecidableEq

/-- `impl Serialize for AroundRadius`: `All` → the literal string `"all"`,
`Radius(v)` → the bare integer `v`. -/
def AroundRadius.serialize : AroundRadius → Json
  | .All => .str "all"
  | .Radius v => .num v

/-- `AroundRadiusVisitor` via `deserialize_any`: `visit_str` accepts exactly
`"all"` and otherwise fails with a custom message; `visit_u64` accepts any
integer; every other shape hits serde's default `invalid_type` error with
the visitor's `expecting` text `"all or radius in meters"`. -/
def AroundRadius.deserialize : Json → Except String AroundRadius
  | .str value =>
      if value = "all" then .ok .All
      else .error ("expected \"all\", got \"" ++ value ++ "\"")
  | .num value => .ok (.Radius value)
  | j => .error (invalidTypeMsg j "all or radius in meters")

/-! ### TypoTolerance (`src/index/settings.rs`, lines 60–129) -/

/-- `enum TypoTolerance { Enabled, Disabled, Min, Strict }`. -/
inductive TypoTolerance where
  | Enabled
  | Disabled
  | Min
  | Strict
deriving DecidableEq

/-- `impl Serialize for TypoTolerance`: booleans for `Enabled`/`Disabled`,
the strings `"min"`/`"strict"` for the named cases. -/
def TypoTolerance.serialize : TypoTolerance → Json
  | .Enabled => .bool true
  | .Disabled => .bool false
  | .Min => .str "min"
  | .Strict => .str "strict"

/-- `TypoToleranceVisitor` via `deserialize_any`: `visit_bool` maps
`true`/`false` to `Enabled`/`Disabled`; `visit_str` accepts `"min"` and
`"strict"` and otherwise fails with a custom message; other shapes hit the
default `invalid_type` error with `expecting` text `"a bool or String"`. -/
def TypoTolerance.deserialize : Json → Except String TypoTolerance
  | .bool value => if value then .ok .Enabled else .ok .Disabled
  | .str value =>
      if value = "min" then .ok .Min
      else if value = "strict" then .ok .Strict
      else .error ("expected \"min\" or \"strict\", got \"" ++ value ++ "\"")
  | j => .error (invalidTypeMsg j "a bool or String")

/-! ### IgnorePlurals (`src/index/settings.rs`, lines 192–261) -/

/-- `enum IgnorePlurals { Enabled, Disabled, Languages(Vec<String>) }`.
`RemoveStopWords` is a type alias for it in the source. -/
inductive IgnorePlurals where
  | Enabled
  | Disabled
  | Languages (values : List String)
deriving DecidableEq

/-- `pub type RemoveStopWords = IgnorePlurals;`. -/
abbrev RemoveStopWords := IgnorePlurals

/-- `impl Serialize for IgnorePlurals`: booleans for `Enabled`/`Disabled`,
a JSON array of the language strings for `Languages`. -/
def IgnorePlurals.serialize : IgnorePlurals → Json
  | .Enabled => .bool true
  | .Disabled => .bool false
  | .Languages values => .arr (values.map Json.str)

/-- `IgnorePluralsVisitor` via `deserialize_any`: `visit_bool` maps to
`Enabled`/`Disabled`; `visit_seq` collects the elements as strings into
`Languages`; every other shape (in particular a bare string) hits the default
`invalid_type` error with `expecting` text `"a bool or a list of ISO codes"`. -/
def IgnorePlurals.deserialize : Json → Except String IgnorePlurals
  | .bool value => if value then .ok .Enabled else .ok .Disabled
  | .arr elems => (decodeStringList elems).map IgnorePlurals.Languages
  | j => .error (invalidTypeMsg j "a bool or a list of ISO codes")

/-! ### Closed string enumerations (`enum_str!`, `src/index/settings.rs`)

The `enum_str!` helper lives in `src/macros.rs`, which is absent from the
sources; only its invocations and its unit tests are present.  Each codec
below is therefore modelled from the spec (corroborated verbatim by the tests
in `src/index/settings.rs`): encoding a variant yields its fixed string
literal, decoding matches a string exactly against the accepted literals, and
any other string fails with
`invalid value: unknown <EnumName> variant: <value>, expected a string for
<EnumName>`; a non-string shape fails with serde's `invalid_type` against the
`expecting` text `a string for <EnumName>`. -/

/-- The `invalid value:` message the `enum_str!` decoders produce for an
unknown string, as asserted by the tests in `src/index/settings.rs`. -/
def enumStrErr (enumName value : String) : String :=
  "invalid value: unknown " ++ enumName ++ " variant: " ++ value ++
    ", expected a string for " ++ enumName

/-- Modelled from the spec: `enum_str!(SortFacetValuesBy { Count("count"),
Alpha("alpha") })` (`src/index/settings.rs`, lines 12–15); the `enum_str!`
definition itself (`src/macros.rs`) is missing from the sources. -/
inductive SortFacetValuesBy where
  | Count
  | Alpha
deriving DecidableEq

/-- Modelled from the spec: `enum_str!` encoding, each variant to its literal. -/
def SortFacetValuesBy.serialize : SortFacetValuesBy → Json
  | .Count => .str "count"
  | .Alpha => .str "alpha"

/-- Modelled from the spec: `enum_str!` decoding by exact string match, with
the `invalid value:` message on an unknown string. -/
def SortFacetValuesBy.deserialize : Json → Except String SortFacetValuesBy
  | .str s =>
      if s = "count" then .ok .Count
      else if s = "alpha" then .ok .Alpha
      else .error (enumStrErr "SortFacetValuesBy" s)
  | j => .error (invalidTypeMsg j "a string for SortFacetValuesBy")

/-- Modelled from the spec: `enum_str!(QueryType { PrefixLast("prefixLast"),
PrefixAll("prefixAll"), PrefixNone("prefixNone") })` (`src/index/settings.rs`,
lines 314–318). -/
inductive QueryType where
  | PrefixLast
  | PrefixAll
  | PrefixNone
deriving DecidableEq

/-- Modelled from the spec: `enum_str!` encoding for `QueryType`. -/
def QueryType.serialize : QueryType → Json
  | .PrefixLast => .str "prefixLast"
  | .PrefixAll => .str "prefixAll"
  | .PrefixNone => .str "prefixNone"

/-- Modelled from the spec: `enum_str!` decoding for `QueryType`. -/
def QueryType.deserialize : Json → Except String QueryType
  | .str s =>
      if s = "prefixLast" then .ok .PrefixLast
      else if s = "prefixAll" then .ok .PrefixAll
      else if s = "prefixNone" then .ok .PrefixNone
      else .error (enumStrErr "QueryType" s)
  | j => .error (invalidTypeMsg j "a string for QueryType")

/-- Modelled from the spec: `enum_str!(RemoveWordsIfNoResults { None("none"),
LastWords("lastWords"), FirstWords("firstWords"), AllOptions("allOptions") })`
(`src/index/settings.rs`, lines 371–376). -/
inductive RemoveWordsIfNoResults where
  | None
  | LastWords
  | FirstWords
  | AllOptions
deriving DecidableEq

/-- Modelled from the spec: `enum_str!` encoding for `RemoveWordsIfNoResults`. -/
def RemoveWordsIfNoResults.serialize : RemoveWordsIfNoResults → Json
  | .None => .str "none"
  | .LastWords => .str "lastWords"
  | .FirstWords => .str "firstWords"
  | .AllOptions => .str "allOptions"

/-- Modelled from the spec: `enum_str!` decoding for `RemoveWordsIfNoResults`. -/
def RemoveWordsIfNoResults.deserialize : Json → Except String RemoveWordsIfNoResults
  | .str s =>
      if s = "none" then .ok .None
      else if s = "lastWords" then .ok .LastWords
      else if s = "firstWords" then .ok .FirstWords
      else if s = "allOptions" then .ok .AllOptions
      else .error (enumStrErr "RemoveWordsIfNoResults" s)
  | j => .error (invalidTypeMsg j "a string for RemoveWordsIfNoResults")

/-- Modelled from the spec: `enum_str!(ExactOnSingleWordQuery {
Attribute("attribute"), None("none"), Word("word") })`
(`src/index/settings.rs`, lines 378–382). -/
inductive ExactOnSingleWordQuery where
  | Attribute
  | None
  | Word
deriving DecidableEq

/-- Modelled from the spec: `enum_str!` encoding for `ExactOnSingleWordQuery`. -/
def ExactOnSingleWordQuery.serialize : ExactOnSingleWordQuery → Json
  | .Attribute => .str "attribute"
  | .None => .str "none"
  | .Word => .str "word"

/-- Modelled from the spec: `enum_str!` decoding for `ExactOnSingleWordQuery`. -/
def ExactOnSingleWordQuery.deserialize : Json → Except String ExactOnSingleWordQuery
  | .str s =>
      if s = "attribute" then .ok .Attribute
      else if s = "none" then .ok .None
      else if s = "word" then .ok .Word
      else .error (enumStrErr "ExactOnSingleWordQuery" s)
  | j => .error (invalidTypeMsg j "a string for ExactOnSingleWordQuery")

/-- Modelled from the spec: `enum_str!(AlternativesAsExact {
IgnorePlurals("ignorePlurals"), SingleWordSynonym("singleWordSynonym"),
MultiWordsSynonym("multiWordsSynonym") })` (`src/index/settings.rs`,
lines 384–388). -/
inductive AlternativesAsExact where
  | IgnorePlurals
  | SingleWordSynonym
  | MultiWordsSynonym
deriving DecidableEq

/-- Modelled from the spec: `enum_str!` encoding for `AlternativesAsExact`. -/
def AlternativesAsExact.serialize : AlternativesAsExact → Json
  | .IgnorePlurals => .str "ignorePlurals"
  | .SingleWordSynonym => .str "singleWordSynonym"
  | .MultiWordsSynonym => .str "multiWordsSynonym"

/-- Modelled from the spec: `enum_str!` decoding for `AlternativesAsExact`. -/
def AlternativesAsExact.deserialize : Json → Except String AlternativesAsExact
  | .str s =>
      if s = "ignorePlurals" then .ok .IgnorePlurals
      else if s = "singleWordSynonym" then .ok .SingleWordSynonym
      else if s = "multiWordsSynonym" then .ok .MultiWordsSynonym
      else .error (enumStrErr "AlternativesAsExact" s)
  | j => .error (invalidTypeMsg j "a string for AlternativesAsExact")

/-! ### Integer-repr enums (`serde_repr`, `src/index/settings.rs`, lines 390–422) -/

/-- `enum Distinct { Zero = 0, One = 1, Two = 2, Three = 3 }` with
`#[repr(u8)]` and `Serialize_repr`/`Deserialize_repr`. -/
inductive Distinct where
  | Zero
  | One
  | Two
  | Three
deriving DecidableEq

/-- `Serialize_repr` for `Distinct`: the raw integer discriminant. -/
def Distinct.serialize : Distinct → Json
  | .Zero => .num 0
  | .One => .num 1
  | .Two => .num 2
  | .Three => .num 3

/-- `Deserialize_repr` for `Distinct`: an integer in the closed range, any
other value an error. -/
def Distinct.deserialize : Json → Except String Distinct
  | .num 0 => .ok .Zero
  | .num 1 => .ok .One
  | .num 2 => .ok .Two
  | .num 3 => .ok .Three
  | j => .error (invalidTypeMsg j "one of: 0, 1, 2, 3")

/-- `enum MinProximity { One = 1, ..., Seven = 7 }` with `#[repr(u8)]` and
`Serialize_repr`/`Deserialize_repr`. -/
inductive MinProximity where
  | One
  | Two
  | Three
  | Four
  | Five
  | Six
  | Seven
deriving DecidableEq

/-- `Serialize_repr` for `MinProximity`: the raw integer discriminant. -/
def MinProximity.serialize : MinProximity → Json
  | .One => .num 1
  | .Two => .num 2
  | .Three => .num 3
  | .Four => .num 4
  | .Five => .num 5
  | .Six => .num 6
  | .Seven => .num 7

/-- `Deserialize_repr` for `MinProximity`. -/
def MinProximity.deserialize : Json → Except String MinProximity
  | .num 1 => .ok .One
  | .num 2 => .ok .Two
  | .num 3 => .ok .Three
  | .num 4 => .ok .Four
  | .num 5 => .ok .Five
  | .num 6 => .ok .Six
  | .num 7 => .ok .Seven
  | j => .error (invalidTypeMsg j "one of: 1, 2, 3, 4, 5, 6, 7")

/-- `enum StringOrVecOfString { String(String), VecOfString(Vec<String>) }`
(`src/index/mod.rs`, lines 138–142), a derived externally-tagged enum. -/
inductive StringOrVecOfString where
  | String (s : String)
  | VecOfString (v : List String)
deriving DecidableEq


/-- 1 when an optional field is set, else 0. -/
def oneIfSome : Option α → Nat
  | some _ => 1
  | none => 0

/-! ### The url-encoded value rendering of `serde_urlencoded`

`Index::search` serializes the `SearchQuery` with
`serde_urlencoded::to_string` (`src/index/mod.rs`, line 560).  That external
serializer emits one `key=value` pair per field, skips a `None` value
entirely (so `query`, the one field without `skip_serializing_if`, is still
omitted when unset), renders primitives (strings as themselves, booleans as
`true`/`false`, integers in decimal, and through them the `Serialize` impls
of the enum codecs above), and rejects compound values (sequences, maps,
tagged enum variants) with an unsupported-value error — it has no list
syntax.  The `uXxx` functions model that per-value contract; `.error` marks
the shapes `serde_urlencoded` cannot render (on which `Index::search`'s
`.expect` would abort). -/

/-- A plain string value. -/
def uStr (s : String) : Except String String := .ok s

/-- A boolean value. -/
def uBool (b : Bool) : Except String String := .ok (if b then "true" else "false")

/-- A `u64` value. -/
def uNat (n : Nat) : Except String String := .ok (toString n)

/-- A `Vec<String>` value: a sequence, unsupported in a url-encoded pair. -/
def uStrList (_ : List String) : Except String String :=
  .error "unsupported value"

/-- A `Vec<f64>` value: a sequence, unsupported in a url-encoded pair. -/
def uFloatList (_ : List Float) : Except String String :=
  .error "unsupported value"

/-- A `StringOrVecOfString` value: a derived externally-tagged enum variant,
unsupported in a url-encoded pair. -/
def uSV (_ : StringOrVecOfString) : Except String String :=
  .error "unsupported value"

/-- A `Vec<StringOrVecOfString>` value: a sequence, unsupported. -/
def uSVList (_ : List StringOrVecOfString) : Except String String :=
  .error "unsupported value"

/-- `TypoTolerance` through its `Serialize` impl: a boolean or a string. -/
def uTypoTolerance : TypoTolerance → Except String String
  | .Enabled => .ok "true"
  | .Disabled => .ok "false"
  | .Min => .ok "min"
  | .Strict => .ok "strict"

/-- `AroundRadius` through its `Serialize` impl: `"all"` or the integer. -/
def uAroundRadius : AroundRadius → Except String String
  | .All => .ok "all"
  | .Radius v => .ok (toString v)

/-- `IgnorePlurals` through its `Serialize` impl: a boolean, or an
unsupported sequence for `Languages`. -/
def uIgnorePlurals : IgnorePlurals → Except String String
  | .Enabled => .ok "true"
  | .Disabled => .ok "false"
  | .Languages _ => .error "unsupported value"

/-- `SortFacetValuesBy` through its `Serialize` impl: its string literal. -/
def uSortFacetValuesBy : SortFacetValuesBy → Except String String
  | .Count => .ok "count"
  | .Alpha => .ok "alpha"

/-- `QueryType` through its `Serialize` impl: its string literal. -/
def uQueryType : QueryType → Except String String
  | .PrefixLast => .ok "prefixLast"
  | .PrefixAll => .ok "prefixAll"
  | .PrefixNone => .ok "prefixNone"

/-- `RemoveWordsIfNoResults` through its `Serialize` impl. -/
def uRemoveWordsIfNoResults : RemoveWordsIfNoResults → Except String String
  | .None => .ok "none"
  | .LastWords => .ok "lastWords"
  | .FirstWords => .ok "firstWords"
  | .AllOptions => .ok "allOptions"

/-- `ExactOnSingleWordQuery` through its `Serialize` impl. -/
def uExactOnSingleWordQuery : ExactOnSingleWordQuery → Except String String
  | .Attribute => .ok "attribute"
  | .None => .ok "none"
  | .Word => .ok "word"

/-- `AlternativesAsExact` through its `Serialize` impl. -/
def uAlternativesAsExact : AlternativesAsExact → Except String String
  | .IgnorePlurals => .ok "ignorePlurals"
  | .SingleWordSynonym => .ok "singleWordSynonym"
  | .MultiWordsSynonym => .ok "multiWordsSynonym"

/-- `Distinct` through `Serialize_repr`: its decimal discriminant. -/
def uDistinct : Distinct → Except String String
  | .Zero => .ok "0"
  | .One => .ok "1"
  | .Two => .ok "2"
  | .Three => .ok "3"

/-- `MinProximity` through `Serialize_repr`: its decimal discriminant. -/
def uMinProximity : MinProximity → Except String String
  | .One => .ok "1"
  | .Two => .ok "2"
  | .Three => .ok "3"
  | .Four => .ok "4"
  | .Five => .ok "5"
  | .Six => .ok "6"
  | .Seven => .ok "7"

/-! ### Percent-encoding (`application/x-www-form-urlencoded`)

`serde_urlencoded` writes keys and values through `url::form_urlencoded`:
ASCII alphanumerics and `*`, `-`, `.`, `_` pass through, a space becomes
`+`, and every other byte of the UTF-8 encoding becomes `%XX` with
upper-case hex. -/

/-- Upper-case hex digit for `n < 16`. -/
def hexDigit (n : Nat) : Char :=
  if n < 10 then Char.ofNat (48 + n) else Char.ofNat (55 + n)

/-- `%XX` escape for one byte. -/
def percentByte (b : Nat) : String :=
  String.mk ['%', hexDigit (b / 16 % 16), hexDigit (b % 16)]

/-- The UTF-8 bytes of a character, by the standard arithmetic layout. -/
def utf8Bytes (c : Char) : List Nat :=
  let n := c.toNat
  if n < 0x80 then [n]
  else if n < 0x800 then [0xC0 + n / 0x40, 0x80 + n % 0x40]
  else if n < 0x10000 then
    [0xE0 + n / 0x1000, 0x80 + n / 0x40 % 0x40, 0x80 + n % 0x40]
  else
    [0xF0 + n / 0x40000, 0x80 + n / 0x1000 % 0x40,
     0x80 + n / 0x40 % 0x40, 0x80 + n % 0x40]

/-- Does the character pass through form-urlencoding unchanged? -/
def formSafe (c : Char) : Bool :=
  c.isAlphanum || c == '*' || c == '-' || c == '.' || c == '_'

/-- Form-urlencode one character. -/
def formEncodeChar (c : Char) : String :=
  if formSafe c then String.singleton c
  else if c == ' ' then "+"
  else String.join ((utf8Bytes c).map percentByte)

/-- Form-urlencode a string (applied to both keys and values). -/
def formEncode (s : String) : String :=
  String.join (s.data.map formEncodeChar)

/-! ### SearchQuery (`src/index/mod.rs`, lines 144–430)

The struct derives `Serialize` and `Default` with no `rename_all`
attribute, so wire names are the Rust field names except the three explicit
`serde(rename = ..)` fields (`minWordSizefor1Typo`, `minWordSizefor2Typo`,
`aroundLatLngViaIP`).  Every field except `query` carries
`skip_serializing_if = "Option::is_none"`; `serde_urlencoded` omits a `None`
pair anyway, so `query` too is absent from the output when unset. -/

structure SearchQuery where
  query : Option (String) := none
  attributes_to_retrieve : Option (List String) := none
  restrict_searchable_attributes : Option (List String) := none
  filters : Option (String) := none
  facet_filters : Option (List StringOrVecOfString) := none
  optional_filters : Option (List StringOrVecOfString) := none
  numeric_filters : Option (List String) := none
  tag_filters : Option (StringOrVecOfString) := none
  sum_or_filters_scores : Option (Bool) := none
  facets : Option (List String) := none
  max_values_per_facet : Option (Nat) := none
  faceting_after_distinct : Option (Bool) := none
  sort_facet_values_by : Option (SortFacetValuesBy) := none
  attributes_to_highlight : Option (List String) := none
  attributes_to_snippet : Option (List String) := none
  highlight_pre_tag : Option (String) := none
  highlight_post_tag : Option (String) := none
  snippet_ellipsis_text : Option (String) := none
  restrict_highlight_and_snippet_arrays : Option (Bool) := none
  page : Option (Nat) := none
  hits_per_page : Option (Nat) := none
  offset : Option (Nat) := none
  length : Option (Nat) := none
  min_word_sizefor_1_typo : Option (Nat) := none
  min_word_sizefor_2_typos : Option (Nat) := none
  typo_tolerance : Option (TypoTolerance) := none
  allow_typos_on_numeric_tokens : Option (Bool) := none
  disable_typo_tolerance_on_attributes : Option (List String) := none
  around_lat_lng : Option (String) := none
  around_lat_lng_via_ip : Option (Bool) := none
  around_radius : Option (AroundRadius) := none
  around_precision : Option (Nat) := none
  minimum_around_radius : Option (Nat) := none
  inside_bounding_box : Option (List Float) := none
  inside_polygon : Option (List Float) := none
  ignore_plurals : Option (IgnorePlurals) := none
  remove_stop_words : Option (RemoveStopWords) := none
  query_languages : Option (List String) := none
  query_type : Option (QueryType) := none
  remove_words_if_no_results : Option (RemoveWordsIfNoResults) := none
  advanced_syntax : Option (Bool) := none
  optional_words : Option (List String) := none
  disable_exact_on_attributes : Option (List String) := none
  exact_on_single_word_query : Option (ExactOnSingleWordQuery) := none
  alternatives_as_exact : Option (AlternativesAsExact) := none
  enable_rules : Option (Bool) := none
  rule_contexts : Option (List String) := none
  enable_personalization : Option (Bool) := none
  user_token : Option (String) := none
  distinct : Option (Distinct) := none
  get_ranking_info : Option (Bool) := none
  click_analytics : Option (Bool) := none
  analytics : Option (Bool) := none
  analytics_tags : Option (List String) := none
  synonyms : Option (Bool) := none
  replace_synonyms_in_highlight : Option (Bool) := none
  min_proximity : Option (MinProximity) := none
  response_fields : Option (List String) := none
  max_facet_hits : Option (Nat) := none
  percentile_computation : Option (Nat) := none

/-- `Default` for `SearchQuery`: every field unset. -/
def SearchQuery.default : SearchQuery := {}

/-- One optional field of the url-encoded serialization: unset is skipped,
set is the wire name with the rendered value (or the renderer's error). -/
def sqField (name : String) (v : Option α) (enc : α → Except String String) :
    Option (String × Except String String) :=
  v.map (fun x => (name, enc x))

/-- The fields of a `SearchQuery`, in declaration order, each as
`none` (unset, emitted as nothing by `serde_urlencoded`) or `some`
(wire name, url-encoded value or encoder error). -/
def SearchQuery.fieldList (q : SearchQuery) : List (Option (String × Except String String)) :=
  [ sqField "query" q.query uStr,
    sqField "attributes_to_retrieve" q.attributes_to_retrieve uStrList,
    sqField "restrict_searchable_attributes" q.restrict_searchable_attributes uStrList,
    sqField "filters" q.filters uStr,
    sqField "facet_filters" q.facet_filters uSVList,
    sqField "optional_filters" q.optional_filters uSVList,
    sqField "numeric_filters" q.numeric_filters uStrList,
    sqField "tag_filters" q.tag_filters uSV,
    sqField "sum_or_filters_scores" q.sum_or_filters_scores uBool,
    sqField "facets" q.facets uStrList,
    sqField "max_values_per_facet" q.max_values_per_facet uNat,
    sqField "faceting_after_distinct" q.faceting_after_distinct uBool,
    sqField "sort_facet_values_by" q.sort_facet_values_by uSortFacetValuesBy,
    sqField "attributes_to_highlight" q.attributes_to_highlight uStrList,
    sqField "attributes_to_snippet" q.attributes_to_snippet uStrList,
    sqField "highlight_pre_tag" q.highlight_pre_tag uStr,
    sqField "highlight_post_tag" q.highlight_post_tag uStr,
    sqField "snippet_ellipsis_text" q.snippet_ellipsis_text uStr,
    sqField "restrict_highlight_and_snippet_arrays" q.restrict_highlight_and_snippet_arrays uBool,
    sqField "page" q.page uNat,
    sqField "hits_per_page" q.hits_per_page uNat,
    sqField "offset" q.offset uNat,
    sqField "length" q.length uNat,
    sqField "minWordSizefor1Typo" q.min_word_sizefor_1_typo uNat,
    sqField "minWordSizefor2Typo" q.min_word_sizefor_2_typos uNat,
    sqField "typo_tolerance" q.typo_tolerance uTypoTolerance,
    sqField "allow_typos_on_numeric_tokens" q.allow_typos_on_numeric_tokens uBool,
    sqField "disable_typo_tolerance_on_attributes" q.disable_typo_tolerance_on_attributes uStrList,
    sqField "around_lat_lng" q.around_lat_lng uStr,
    sqField "aroundLatLngViaIP" q.around_lat_lng_via_ip uBool,
    sqField "around_radius" q.around_radius uAroundRadius,
    sqField "around_precision" q.around_precision uNat,
    sqField "minimum_around_radius" q.minimum_around_radius uNat,
    sqField "inside_bounding_box" q.inside_bounding_box uFloatList,
    sqField "inside_polygon" q.inside_polygon uFloatList,
    sqField "ignore_plurals" q.ignore_plurals uIgnorePlurals,
    sqField "remove_stop_words" q.remove_stop_words uIgnorePlurals,
    sqField "query_languages" q.query_languages uStrList,
    sqField "query_type" q.query_type uQueryType,
    sqField "remove_words_if_no_results" q.remove_words_if_no_results uRemoveWordsIfNoResults,
    sqField "advanced_syntax" q.advanced_syntax uBool,
    sqField "optional_words" q.optional_words uStrList,
    sqField "disable_exact_on_attributes" q.disable_exact_on_attributes uStrList,
    sqField "exact_on_single_word_query" q.exact_on_single_word_query uExactOnSingleWordQuery,
    sqField "alternatives_as_exact" q.alternatives_as_exact uAlternativesAsExact,
    sqField "enable_rules" q.enable_rules uBool,
    sqField "rule_contexts" q.rule_contexts uStrList,
    sqField "enable_personalization" q.enable_personalization uBool,
    sqField "user_token" q.user_token uStr,
    sqField "distinct" q.distinct uDistinct,
    sqField "get_ranking_info" q.get_ranking_info uBool,
    sqField "click_analytics" q.click_analytics uBool,
    sqField "analytics" q.analytics uBool,
    sqField "analytics_tags" q.analytics_tags uStrList,
    sqField "synonyms" q.synonyms uBool,
    sqField "replace_synonyms_in_highlight" q.replace_synonyms_in_highlight uBool,
    sqField "min_proximity" q.min_proximity uMinProximity,
    sqField "response_fields" q.response_fields uStrList,
    sqField "max_facet_hits" q.max_facet_hits uNat,
    sqField "percentile_computation" q.percentile_computation uNat ]

/-- Number of set (`some`) fields of a `SearchQuery`. -/
def SearchQuery.countSet (q : SearchQuery) : Nat :=
  oneIfSome q.query +
    oneIfSome q.attributes_to_retrieve +
    oneIfSome q.restrict_searchable_attributes +
    oneIfSome q.filters +
    oneIfSome q.facet_filters +
    oneIfSome q.optional_filters +
    oneIfSome q.numeric_filters +
    oneIfSome q.tag_filters +
    oneIfSome q.sum_or_filters_scores +
    oneIfSome q.facets +
    oneIfSome q.max_values_per_facet +
    oneIfSome q.faceting_after_distinct +
    oneIfSome q.sort_facet_values_by +
    oneIfSome q.attributes_to_highlight +
    oneIfSome q.attributes_to_snippet +
    oneIfSome q.highlight_pre_tag +
    oneIfSome q.highlight_post_tag +
    oneIfSome q.snippet_ellipsis_text +
    oneIfSome q.restrict_highlight_and_snippet_arrays +
    oneIfSome q.page +
    oneIfSome q.hits_per_page +
    oneIfSome q.offset +
    oneIfSome q.length +
    oneIfSome q.min_word_sizefor_1_typo +
    oneIfSome q.min_word_sizefor_2_typos +
    oneIfSome q.typo_tolerance +
    oneIfSome q.allow_typos_on_numeric_tokens +
    oneIfSome q.disable_typo_tolerance_on_attributes +
    oneIfSome q.around_lat_lng +
    oneIfSome q.around_lat_lng_via_ip +
    oneIfSome q.around_radius +
    oneIfSome q.around_precision +
    oneIfSome q.minimum_around_radius +
    oneIfSome q.inside_bounding_box +
    oneIfSome q.inside_polygon +
    oneIfSome q.ignore_plurals +
    oneIfSome q.remove_stop_words +
    oneIfSome q.query_languages +
    oneIfSome q.query_type +
    oneIfSome q.remove_words_if_no_results +
    oneIfSome q.advanced_syntax +
    oneIfSome q.optional_words +
    oneIfSome q.disable_exact_on_attributes +
    oneIfSome q.exact_on_single_word_query +
    oneIfSome q.alternatives_as_exact +
    oneIfSome q.enable_rules +
    oneIfSome q.rule_contexts +
    oneIfSome q.enable_personalization +
    oneIfSome q.user_token +
    oneIfSome q.distinct +
    oneIfSome q.get_ranking_info +
    oneIfSome q.click_analytics +
    oneIfSome q.analytics +
    oneIfSome q.analytics_tags +
    oneIfSome q.synonyms +
    oneIfSome q.replace_synonyms_in_highlight +
    oneIfSome q.min_proximity +
    oneIfSome q.response_fields +
    oneIfSome q.max_facet_hits +
    oneIfSome q.percentile_computation


/-- Collect the set fields' pairs left to right, failing on the first field
whose value `serde_urlencoded` cannot render, as its serializer does. -/
def collectPairs : List (String × Except String String) → Except String (List (String × String))
  | [] => .ok []
  | (n, .ok v) :: rest => (collectPairs rest).map (fun ps => (n, v) :: ps)
  | (_, .error e) :: _ => .error e

/-- Join rendered pairs into the `&`-separated, form-urlencoded
`key=value` parameter string. -/
def joinParams (ps : List (String × String)) : String :=
  String.intercalate "&" (ps.map (fun p => formEncode p.1 ++ "=" ++ formEncode p.2))

/-- `serde_urlencoded::to_string(query)`: the parameter string of a
`SearchQuery`, or the error `Index::search`'s `.expect` would abort on. -/
def SearchQuery.urlParams (q : SearchQuery) : Except String String :=
  (collectPairs q.fieldList.reduceOption).map joinParams

/-- `impl From<&str> for SearchQuery` (`src/index/mod.rs`, lines 423–430):
only `query` set, everything else `..Default::default()`. -/
def SearchQuery.fromStr (item : String) : SearchQuery :=
  { SearchQuery.default with query := some item }

/-- `struct SearchQueryBody { params: String }` (`src/index/mod.rs`,
lines 418–421), with its derived `Serialize`: a one-field JSON object. -/
structure SearchQueryBody where
  params : String

/-- Derived `Serialize` for `SearchQueryBody`. -/
def SearchQueryBody.serialize (b : SearchQueryBody) : Json :=
  .obj [("params", .str b.params)]

/-- The JSON request body `Index::search` posts (`src/index/mod.rs`,
lines 554–574): the url-encoded parameter string wrapped in
`SearchQueryBody`, or the encoder error its `.expect` aborts on. -/
def Index.searchBody (q : SearchQuery) : Except String Json :=
  (q.urlParams).map (fun params => SearchQueryBody.serialize ⟨params⟩)

/-! ### IndexSettings (`src/index/settings.rs`, lines 424–636)

The struct derives `Serialize`, `Deserialize`, `Default` with
`rename_all = "camelCase"`; every field is `Option` with
`skip_serializing_if = "Option::is_none"`.  `decompounded_attributes`
(`HashMap<String, Vec<String>>`) is modelled as an association list and
`alternatives_as_exact` (`HashSet<AlternativesAsExact>`) as a list: the
embedding fixes one iteration order where the Rust collections leave it
unspecified. -/

/-- JSON encoding of a `Vec<String>`. -/
def encStrList (xs : List String) : Json := .arr (xs.map Json.str)

/-- JSON encoding of a `u64`. -/
def encNat (n : Nat) : Json := .num n

/-- JSON encoding of a `bool`. -/
def encBool (b : Bool) : Json := .bool b

/-- JSON encoding of a `String`. -/
def encStr (s : String) : Json := .str s

/-- JSON encoding of a `HashMap<String, Vec<String>>`. -/
def encStrListMap (m : List (String × List String)) : Json :=
  .obj (m.map (fun p => (p.1, encStrList p.2)))

/-- JSON encoding of a `HashSet<AlternativesAsExact>`. -/
def encAltSet (s : List AlternativesAsExact) : Json :=
  .arr (s.map AlternativesAsExact.serialize)

/-- Decode a `Vec<String>` field value. -/
def decStrList : Json → Except String (List String)
  | .arr elems => decodeStringList elems
  | j => .error (invalidTypeMsg j "a sequence")

/-- Decode a `u64` field value. -/
def decNat : Json → Except String Nat
  | .num n => .ok n
  | j => .error (invalidTypeMsg j "u64")

/-- Decode a `bool` field value. -/
def decBool : Json → Except String Bool
  | .bool b => .ok b
  | j => .error (invalidTypeMsg j "a boolean")

/-- Decode a `String` field value. -/
def decStr : Json → Except String String
  | .str s => .ok s
  | j => .error (invalidTypeMsg j "a string")

/-- Decode a `HashMap<String, Vec<String>>` field value. -/
def decStrListMap : Json → Except String (List (String × List String))
  | .obj members =>
      members.foldrM (fun p acc => (decStrList p.2).map (fun v => (p.1, v) :: acc)) []
  | j => .error (invalidTypeMsg j "a map")

/-- Decode the elements of a `HashSet<AlternativesAsExact>` field value. -/
def decAltList : List Json → Except String (List AlternativesAsExact)
  | [] => .ok []
  | j :: rest =>
      match AlternativesAsExact.deserialize j with
      | .ok a => (decAltList rest).map (fun l => a :: l)
      | .error e => .error e

/-- Decode a `HashSet<AlternativesAsExact>` field value. -/
def decAltSet : Json → Except String (List AlternativesAsExact)
  | .arr elems => decAltList elems
  | j => .error (invalidTypeMsg j "a sequence")

/-- serde's `Option<T>` field deserializer: `null` is `None`, anything else
decodes with `T`'s deserializer into `Some`. -/
def decOpt (dec : Json → Except String α) : Json → Except String (Option α)
  | .null => .ok none
  | j => (dec j).map some

structure IndexSettings where
  searchable_attributes : Option (List String) := none
  attributes_for_facetting : Option (List String) := none
  unretrievable_attributes : Option (List String) := none
  attributes_to_retrieve : Option (List String) := none
  ranking : Option (List String) := none
  custom_ranking : Option (List String) := none
  replicas : Option (List String) := none
  max_values_per_facet : Option (Nat) := none
  sort_facet_values_by : Option (SortFacetValuesBy) := none
  attributes_to_highlight : Option (List String) := none
  attributes_to_snippet : Option (List String) := none
  highlight_pre_tag : Option (String) := none
  highlight_post_tag : Option (String) := none
  snippet_ellipsis_text : Option (String) := none
  restrict_highlight_and_snippet_arrays : Option (Bool) := none
  hits_per_page : Option (Nat) := none
  pagination_limited_to : Option (Nat) := none
  min_word_sizefor_1_typo : Option (Nat) := none
  min_word_sizefor_2_typos : Option (Nat) := none
  typo_tolerance : Option (TypoTolerance) := none
  allow_typos_on_numeric_tokens : Option (Bool) := none
  disable_typo_tolerance_on_attributes : Option (List String) := none
  disable_typo_tolerance_on_words : Option (List String) := none
  separators_to_index : Option (String) := none
  ignore_plurals : Option (IgnorePlurals) := none
  remove_stop_words : Option (RemoveStopWords) := none
  camel_case_attributes : Option (List String) := none
  decompounded_attributes : Option (List (String × List String)) := none
  keep_diacritics_on_characters : Option (String) := none
  query_languages : Option (List String) := none
  query_type : Option (String) := none
  remove_words_if_no_results : Option (RemoveWordsIfNoResults) := none
  advanced_syntax : Option (Bool) := none
  optional_words : Option (List String) := none
  disable_prefix_on_attributes : Option (List String) := none
  disable_exact_on_attributes : Option (List String) := none
  exact_on_single_word_query : Option (ExactOnSingleWordQuery) := none
  alternatives_as_exact : Option (List AlternativesAsExact) := none
  enable_rules : Option (Bool) := none
  numeric_attributes_for_filtering : Option (List String) := none
  allow_compression_of_integer_array : Option (Bool) := none
  attribute_for_distinct : Option (String) := none
  distinct : Option (Distinct) := none
  replace_synonyms_in_highlight : Option (Bool) := none
  min_proximity : Option (MinProximity) := none
  response_fields : Option (List String) := none
  max_facet_hits : Option (Nat) := none

/-- `Default` for `IndexSettings`: every field unset. -/
def IndexSettings.default : IndexSettings := {}

/-- One optional field of the JSON serialization: unset is skipped
(`skip_serializing_if`), set is the camelCase wire name with the encoded
value. -/
def ixField (name : String) (v : Option α) (enc : α → Json) :
    Option (String × Json) :=
  v.map (fun x => (name, enc x))

/-- The fields of an `IndexSettings`, in declaration order, each as `none`
(unset, skipped by `skip_serializing_if = Option.is_none`) or `some`
(camelCase wire name, encoded JSON value). -/
def IndexSettings.fieldList (s : IndexSettings) : List (Option (String × Json)) :=
  [ ixField "searchableAttributes" s.searchable_attributes encStrList,
    ixField "attributesForFacetting" s.attributes_for_facetting encStrList,
    ixField "unretrievableAttributes" s.unretrievable_attributes encStrList,
    ixField "attributesToRetrieve" s.attributes_to_retrieve encStrList,
    ixField "ranking" s.ranking encStrList,
    ixField "customRanking" s.custom_ranking encStrList,
    ixField "replicas" s.replicas encStrList,
    ixField "maxValuesPerFacet" s.max_values_per_facet encNat,
    ixField "sortFacetValuesBy" s.sort_facet_values_by SortFacetValuesBy.serialize,
    ixField "attributesToHighlight" s.attributes_to_highlight encStrList,
    ixField "attributesToSnippet" s.attributes_to_snippet encStrList,
    ixField "highlightPreTag" s.highlight_pre_tag encStr,
    ixField "highlightPostTag" s.highlight_post_tag encStr,
    ixField "snippetEllipsisText" s.snippet_ellipsis_text encStr,
    ixField "restrictHighlightAndSnippetArrays" s.restrict_highlight_and_snippet_arrays encBool,
    ixField "hitsPerPage" s.hits_per_page encNat,
    ixField "paginationLimitedTo" s.pagination_limited_to encNat,
    ixField "minWordSizefor1Typo" s.min_word_sizefor_1_typo encNat,
    ixField "minWordSizefor2Typo" s.min_word_sizefor_2_typos encNat,
    ixField "typoTolerance" s.typo_tolerance TypoTolerance.serialize,
    ixField "allowTyposOnNumericTokens" s.allow_typos_on_numeric_tokens encBool,
    ixField "disableTypoToleranceOnAttributes" s.disable_typo_tolerance_on_attributes encStrList,
    ixField "disableTypoToleranceOnWords" s.disable_typo_tolerance_on_words encStrList,
    ixField "separatorsToIndex" s.separators_to_index encStr,
    ixField "ignorePlurals" s.ignore_plurals IgnorePlurals.serialize,
    ixField "removeStopWords" s.remove_stop_words IgnorePlurals.serialize,
    ixField "camelCaseAttributes" s.camel_case_attributes encStrList,
    ixField "decompoundedAttributes" s.decompounded_attributes encStrListMap,
    ixField "keepDiacriticsOnCharacters" s.keep_diacritics_on_characters encStr,
    ixField "queryLanguages" s.query_languages encStrList,
    ixField "queryType" s.query_type encStr,
    ixField "removeWordsIfNoResults" s.remove_words_if_no_results RemoveWordsIfNoResults.serialize,
    ixField "advancedSyntax" s.advanced_syntax encBool,
    ixField "optionalWords" s.optional_words encStrList,
    ixField "disablePrefixOnAttributes" s.disable_prefix_on_attributes encStrList,
    ixField "disableExactOnAttributes" s.disable_exact_on_attributes encStrList,
    ixField "exactOnSingleWordQuery" s.exact_on_single_word_query ExactOnSingleWordQuery.serialize,
    ixField "alternativesAsExact" s.alternatives_as_exact encAltSet,
    ixField "enableRules" s.enable_rules encBool,
    ixField "numericAttributesForFiltering" s.numeric_attributes_for_filtering encStrList,
    ixField "allowCompressionOfIntegerArray" s.allow_compression_of_integer_array encBool,
    ixField "attributeForDistinct" s.attribute_for_distinct encStr,
    ixField "distinct" s.distinct Distinct.serialize,
    ixField "replaceSynonymsInHighlight" s.replace_synonyms_in_highlight encBool,
    ixField "minProximity" s.min_proximity MinProximity.serialize,
    ixField "responseFields" s.response_fields encStrList,
    ixField "maxFacetHits" s.max_facet_hits encNat ]

/-- Number of set (`some`) fields of an `IndexSettings`. -/
def IndexSettings.countSet (s : IndexSettings) : Nat :=
  oneIfSome s.searchable_attributes +
    oneIfSome s.attributes_for_facetting +
    oneIfSome s.unretrievable_attributes +
    oneIfSome s.attributes_to_retrieve +
    oneIfSome s.ranking +
    oneIfSome s.custom_ranking +
    oneIfSome s.replicas +
    oneIfSome s.max_values_per_facet +
    oneIfSome s.sort_facet_values_by +
    oneIfSome s.attributes_to_highlight +
    oneIfSome s.attributes_to_snippet +
    oneIfSome s.highlight_pre_tag +
    oneIfSome s.highlight_post_tag +
    oneIfSome s.snippet_ellipsis_text +
    oneIfSome s.restrict_highlight_and_snippet_arrays +
    oneIfSome s.hits_per_page +
    oneIfSome s.pagination_limited_to +
    oneIfSome s.min_word_sizefor_1_typo +
    oneIfSome s.min_word_sizefor_2_typos +
    oneIfSome s.typo_tolerance +
    oneIfSome s.allow_typos_on_numeric_tokens +
    oneIfSome s.disable_typo_tolerance_on_attributes +
    oneIfSome s.disable_typo_tolerance_on_words +
    oneIfSome s.separators_to_index +
    oneIfSome s.ignore_plurals +
    oneIfSome s.remove_stop_words +
    oneIfSome s.camel_case_attributes +
    oneIfSome s.decompounded_attributes +
    oneIfSome s.keep_diacritics_on_characters +
    oneIfSome s.query_languages +
    oneIfSome s.query_type +
    oneIfSome s.remove_words_if_no_results +
    oneIfSome s.advanced_syntax +
    oneIfSome s.optional_words +
    oneIfSome s.disable_prefix_on_attributes +
    oneIfSome s.disable_exact_on_attributes +
    oneIfSome s.exact_on_single_word_query +
    oneIfSome s.alternatives_as_exact +
    oneIfSome s.enable_rules +
    oneIfSome s.numeric_attributes_for_filtering +
    oneIfSome s.allow_compression_of_integer_array +
    oneIfSome s.attribute_for_distinct +
    oneIfSome s.distinct +
    oneIfSome s.replace_synonyms_in_highlight +
    oneIfSome s.min_proximity +
    oneIfSome s.response_fields +
    oneIfSome s.max_facet_hits

/-- The wire names the derived `IndexSettings` deserializer recognizes. -/
def IndexSettings.knownKeys : List String :=
  ["searchableAttributes",
   "attributesForFacetting",
   "unretrievableAttributes",
   "attributesToRetrieve",
   "ranking",
   "customRanking",
   "replicas",
   "maxValuesPerFacet",
   "sortFacetValuesBy",
   "attributesToHighlight",
   "attributesToSnippet",
   "highlightPreTag",
   "highlightPostTag",
   "snippetEllipsisText",
   "restrictHighlightAndSnippetArrays",
   "hitsPerPage",
   "paginationLimitedTo",
   "minWordSizefor1Typo",
   "minWordSizefor2Typo",
   "typoTolerance",
   "allowTyposOnNumericTokens",
   "disableTypoToleranceOnAttributes",
   "disableTypoToleranceOnWords",
   "separatorsToIndex",
   "ignorePlurals",
   "removeStopWords",
   "camelCaseAttributes",
   "decompoundedAttributes",
   "keepDiacriticsOnCharacters",
   "queryLanguages",
   "queryType",
   "removeWordsIfNoResults",
   "advancedSyntax",
   "optionalWords",
   "disablePrefixOnAttributes",
   "disableExactOnAttributes",
   "exactOnSingleWordQuery",
   "alternativesAsExact",
   "enableRules",
   "numericAttributesForFiltering",
   "allowCompressionOfIntegerArray",
   "attributeForDistinct",
   "distinct",
   "replaceSynonymsInHighlight",
   "minProximity",
   "responseFields",
   "maxFacetHits"]

/-- One step of the derived `IndexSettings` deserializer: a known wire key
decodes its value with the field type's deserializer (`null` giving `none`,
as serde does for an `Option` field) and sets the field; an unknown key is
ignored (no `deny_unknown_fields` on the struct). -/
def IndexSettings.applyField (s : IndexSettings) : String × Json → Except String IndexSettings
  | ("searchableAttributes", v) => (decOpt decStrList v).map (fun x => { s with searchable_attributes := x })
  | ("attributesForFacetting", v) => (decOpt decStrList v).map (fun x => { s with attributes_for_facetting := x })
  | ("unretrievableAttributes", v) => (decOpt decStrList v).map (fun x => { s with unretrievable_attributes := x })
  | ("attributesToRetrieve", v) => (decOpt decStrList v).map (fun x => { s with attributes_to_retrieve := x })
  | ("ranking", v) => (decOpt decStrList v).map (fun x => { s with ranking := x })
  | ("customRanking", v) => (decOpt decStrList v).map (fun x => { s with custom_ranking := x })
  | ("replicas", v) => (decOpt decStrList v).map (fun x => { s with replicas := x })
  | ("maxValuesPerFacet", v) => (decOpt decNat v).map (fun x => { s with max_values_per_facet := x })
  | ("sortFacetValuesBy", v) => (decOpt SortFacetValuesBy.deserialize v).map (fun x => { s with sort_facet_values_by := x })
  | ("attributesToHighlight", v) => (decOpt decStrList v).map (fun x => { s with attributes_to_highlight := x })
  | ("attributesToSnippet", v) => (decOpt decStrList v).map (fun x => { s with attributes_to_snippet := x })
  | ("highlightPreTag", v) => (decOpt decStr v).map (fun x => { s with highlight_pre_tag := x })
  | ("highlightPostTag", v) => (decOpt decStr v).map (fun x => { s with highlight_post_tag := x })
  | ("snippetEllipsisText", v) => (decOpt decStr v).map (fun x => { s with snippet_ellipsis_text := x })
  | ("restrictHighlightAndSnippetArrays", v) => (decOpt decBool v).map (fun x => { s with restrict_highlight_and_snippet_arrays := x })
  | ("hitsPerPage", v) => (decOpt decNat v).map (fun x => { s with hits_per_page := x })
  | ("paginationLimitedTo", v) => (decOpt decNat v).map (fun x => { s with pagination_limited_to := x })
  | ("minWordSizefor1Typo", v) => (decOpt decNat v).map (fun x => { s with min_word_sizefor_1_typo := x })
  | ("minWordSizefor2Typo", v) => (decOpt decNat v).map (fun x => { s with min_word_sizefor_2_typos := x })
  | ("typoTolerance", v) => (decOpt TypoTolerance.deserialize v).map (fun x => { s with typo_tolerance := x })
  | ("allowTyposOnNumericTokens", v) => (decOpt decBool v).map (fun x => { s with allow_typos_on_numeric_tokens := x })
  | ("disableTypoToleranceOnAttributes", v) => (decOpt decStrList v).map (fun x => { s with disable_typo_tolerance_on_attributes := x })
  | ("disableTypoToleranceOnWords", v) => (decOpt decStrList v).map (fun x => { s with disable_typo_tolerance_on_words := x })
  | ("separatorsToIndex", v) => (decOpt decStr v).map (fun x => { s with separators_to_index := x })
  | ("ignorePlurals", v) => (decOpt IgnorePlurals.deserialize v).map (fun x => { s with ignore_plurals := x })
  | ("removeStopWords", v) => (decOpt IgnorePlurals.deserialize v).map (fun x => { s with remove_stop_words := x })
  | ("camelCaseAttributes", v) => (decOpt decStrList v).map (fun x => { s with camel_case_attributes := x })
  | ("decompoundedAttributes", v) => (decOpt decStrListMap v).map (fun x => { s with decompounded_attributes := x })
  | ("keepDiacriticsOnCharacters", v) => (decOpt decStr v).map (fun x => { s with keep_diacritics_on_characters := x })
  | ("queryLanguages", v) => (decOpt decStrList v).map (fun x => { s with query_languages := x })
  | ("queryType", v) => (decOpt decStr v).map (fun x => { s with query_type := x })
  | ("removeWordsIfNoResults", v) => (decOpt RemoveWordsIfNoResults.deserialize v).map (fun x => { s with remove_words_if_no_results := x })
  | ("advancedSyntax", v) => (decOpt decBool v).map (fun x => { s with advanced_syntax := x })
  | ("optionalWords", v) => (decOpt decStrList v).map (fun x => { s with optional_words := x })
  | ("disablePrefixOnAttributes", v) => (decOpt decStrList v).map (fun x => { s with disable_prefix_on_attributes := x })
  | ("disableExactOnAttributes", v) => (decOpt decStrList v).map (fun x => { s with disable_exact_on_attributes := x })
  | ("exactOnSingleWordQuery", v) => (decOpt ExactOnSingleWordQuery.deserialize v).map (fun x => { s with exact_on_single_word_query := x })
  | ("alternativesAsExact", v) => (decOpt decAltSet v).map (fun x => { s with alternatives_as_exact := x })
  | ("enableRules", v) => (decOpt decBool v).map (fun x => { s with enable_rules := x })
  | ("numericAttributesForFiltering", v) => (decOpt decStrList v).map (fun x => { s with numeric_attributes_for_filtering := x })
  | ("allowCompressionOfIntegerArray", v) => (decOpt decBool v).map (fun x => { s with allow_compression_of_integer_array := x })
  | ("attributeForDistinct", v) => (decOpt decStr v).map (fun x => { s with attribute_for_distinct := x })
  | ("distinct", v) => (decOpt Distinct.deserialize v).map (fun x => { s with distinct := x })
  | ("replaceSynonymsInHighlight", v) => (decOpt decBool v).map (fun x => { s with replace_synonyms_in_highlight := x })
  | ("minProximity", v) => (decOpt MinProximity.deserialize v).map (fun x => { s with min_proximity := x })
  | ("responseFields", v) => (decOpt decStrList v).map (fun x => { s with response_fields := x })
  | ("maxFacetHits", v) => (decOpt decNat v).map (fun x => { s with max_facet_hits := x })
  | (_, _) => .ok s

/-- Derived `Serialize` for `IndexSettings`: the set fields, in declaration
order, as a JSON object; unset fields are skipped
(`skip_serializing_if = "Option::is_none"`). -/
def IndexSettings.serializeFields (s : IndexSettings) : List (String × Json) :=
  s.fieldList.reduceOption

/-- The serialized `IndexSettings` JSON object. -/
def IndexSettings.serialize (s : IndexSettings) : Json :=
  .obj s.serializeFields

/-- Derived `Deserialize` for `IndexSettings`: a JSON object whose known
keys each appear at most once (serde errors on a duplicate field), folded
field by field over the defaults; unknown keys are ignored. -/
def IndexSettings.deserialize : Json → Except String IndexSettings
  | .obj members =>
      if ((members.map Prod.fst).filter (fun k => IndexSettings.knownKeys.contains k)).Nodup then
        members.foldlM IndexSettings.applyField IndexSettings.default
      else
        .error "duplicate field"
  | j => .error (invalidTypeMsg j "struct IndexSettings")

/-! ### Client and Index (`src/client.rs`, `src/index/mod.rs`) -/

/-- `struct Index<T>`'s credential-and-routing data (`src/index/mod.rs`,
lines 498–508); the `PhantomData<T>` hit-type marker carries no state. -/
structure Index where
  application_id : String
  index_name : String
  api_key : String
  base_url : String
deriving DecidableEq

/-- `struct Client { application_id: Option<String>, api_key: Option<String> }`
(`src/client.rs`, lines 9–13). -/
structure Client where
  application_id : Option String
  api_key : Option String
deriving DecidableEq

/-- `Client::new` (`src/client.rs`, lines 18–23). -/
def Client.new (application_id api_key : String) : Client :=
  ⟨some application_id, some api_key⟩

/-- `Client::init_index` (`src/client.rs`, lines 44–58).  The source
`panic!`s when either credential is `None`; the embedding returns the panic
message as `.error`, and otherwise the constructed `Index` with the client's
credentials and the derived base url. -/
def Client.init_index (c : Client) (index_name : String) : Except String Index :=
  if c.application_id.isNone || c.api_key.isNone then
    .error "application_id and/or api_key are not initialized"
  else
    match c.application_id, c.api_key with
    | some app, some key =>
        .ok { application_id := app
              index_name := index_name
              api_key := key
              base_url := "https://" ++ app ++ "-dsn.algolia.net/1" }
    | _, _ => .error "application_id and/or api_key are not initialized"


/-! ## Helper lemmas -/

/-- Decoding a list of string values undoes `map Json.str`. -/
theorem decodeStringList_map_str (ls : List String) :
    decodeStringList (ls.map Json.str) = .ok ls := by
  induction ls with
  | nil => rfl
  | cons x xs ih => simp [decodeStringList, ih, Except.map]

/-- `oneIfSome` ignores a `map`. -/
theorem oneIfSome_map (o : Option α) (f : α → β) :
    oneIfSome (o.map f) = oneIfSome o := by
  cases o <;> rfl

/-- `reduceOption` length, one cell at a time. -/
theorem reduceOption_length_cons (o : Option α) (rest : List (Option α)) :
    (o :: rest).reduceOption.length = oneIfSome o + rest.reduceOption.length := by
  cases o with
  | none => simp [List.reduceOption_cons_of_none, oneIfSome]
  | some x => simp [List.reduceOption_cons_of_some, oneIfSome, Nat.add_comm]

/-- A pair produced by an `ixField` cell carries the encoder's output, so it
is not `null` whenever the encoder never returns `null`. -/
theorem ixField_ne_null {p : String × Json} {name : String} {v : Option α}
    {enc : α → Json} (henc : ∀ x, enc x ≠ Json.null)
    (h : some p = ixField name v enc) : p.2 ≠ Json.null := by
  cases v with
  | none => simp [ixField] at h
  | some x =>
      simp only [ixField, Option.map_some', Option.some.injEq] at h
      rw [h]
      exact henc x


/-- Encode-then-decode is the identity on `AroundRadius`. -/
theorem aroundRadius_roundtrip (v : AroundRadius) :
    AroundRadius.deserialize (AroundRadius.serialize v) = .ok v := by
  cases v <;> rfl

/-- Encode-then-decode is the identity on `TypoTolerance`. -/
theorem typoTolerance_roundtrip (v : TypoTolerance) :
    TypoTolerance.deserialize (TypoTolerance.serialize v) = .ok v := by
  cases v <;> rfl

/-- Encode-then-decode is the identity on `IgnorePlurals`. -/
theorem ignorePlurals_roundtrip (v : IgnorePlurals) :
    IgnorePlurals.deserialize (IgnorePlurals.serialize v) = .ok v := by
  cases v with
  | Enabled => rfl
  | Disabled => rfl
  | Languages ls =>
      simp [IgnorePlurals.serialize, IgnorePlurals.deserialize,
        decodeStringList_map_str, Except.map]

/-- Encode-then-decode is the identity on `SortFacetValuesBy`. -/
theorem sortFacetValuesBy_roundtrip (v : SortFacetValuesBy) :
    SortFacetValuesBy.deserialize (SortFacetValuesBy.serialize v) = .ok v := by
  cases v <;> rfl

/-- Encode-then-decode is the identity on `QueryType`. -/
theorem queryType_roundtrip (v : QueryType) :
    QueryType.deserialize (QueryType.serialize v) = .ok v := by
  cases v <;> rfl

/-- Encode-then-decode is the identity on `RemoveWordsIfNoResults`. -/
theorem removeWordsIfNoResults_roundtrip (v : RemoveWordsIfNoResults) :
    RemoveWordsIfNoResults.deserialize (RemoveWordsIfNoResults.serialize v) = .ok v := by
  cases v <;> rfl

/-- Encode-then-decode is the identity on `ExactOnSingleWordQuery`. -/
theorem exactOnSingleWordQuery_roundtrip (v : ExactOnSingleWordQuery) :
    ExactOnSingleWordQuery.deserialize (ExactOnSingleWordQuery.serialize v) = .ok v := by
  cases v <;> rfl

/-- Encode-then-decode is the identity on `AlternativesAsExact`. -/
theorem alternativesAsExact_roundtrip (v : AlternativesAsExact) :
    AlternativesAsExact.deserialize (AlternativesAsExact.serialize v) = .ok v := by
  cases v <;> rfl

/-- A decoded `AroundRadius` re-encodes to the shape it was parsed from. -/
theorem aroundRadius_shape_preserved (j : Json) (v : AroundRadius)
    (h : AroundRadius.deserialize j = .ok v) :
    (AroundRadius.serialize v).shapeCat = j.shapeCat := by
  cases j with
  | str s =>
      by_cases hs : s = "all"
      · subst hs
        simp [AroundRadius.deserialize] at h
        subst h
        rfl
      · simp [AroundRadius.deserialize, hs] at h
  | num n =>
      simp [AroundRadius.deserialize] at h
      subst h
      rfl
  | null => simp [AroundRadius.deserialize] at h
  | bool b => simp [AroundRadius.deserialize] at h
  | arr es => simp [AroundRadius.deserialize] at h
  | obj ms => simp [AroundRadius.deserialize] at h

/-- A decoded `TypoTolerance` re-encodes to the shape it was parsed from. -/
theorem typoTolerance_shape_preserved (j : Json) (v : TypoTolerance)
    (h : TypoTolerance.deserialize j = .ok v) :
    (TypoTolerance.serialize v).shapeCat = j.shapeCat := by
  cases j with
  | bool b => cases b <;> simp [TypoTolerance.deserialize] at h <;> subst h <;> rfl
  | str s =>
      by_cases h1 : s = "min"
      · subst h1
        simp [TypoTolerance.deserialize] at h
        subst h
        rfl
      · by_cases h2 : s = "strict"
        · subst h2
          simp [TypoTolerance.deserialize, h1] at h
          subst h
          rfl
        · simp [TypoTolerance.deserialize, h1, h2] at h
  | null => simp [TypoTolerance.deserialize] at h
  | num n => simp [TypoTolerance.deserialize] at h
  | arr es => simp [TypoTolerance.deserialize] at h
  | obj ms => simp [TypoTolerance.deserialize] at h

/-- A decoded `IgnorePlurals` re-encodes to the shape it was parsed from. -/
theorem ignorePlurals_shape_preserved (j : Json) (v : IgnorePlurals)
    (h : IgnorePlurals.deserialize j = .ok v) :
    (IgnorePlurals.serialize v).shapeCat = j.shapeCat := by
  cases j with
  | bool b => cases b <;> simp [IgnorePlurals.deserialize] at h <;> subst h <;> rfl
  | arr es =>
      cases hd : decodeStringList es with
      | ok ls =>
          simp [IgnorePlurals.deserialize, hd, Except.map] at h
          subst h
          rfl
      | error e => simp [IgnorePlurals.deserialize, hd, Except.map] at h
  | null => simp [IgnorePlurals.deserialize] at h
  | num n => simp [IgnorePlurals.deserialize] at h
  | str s => simp [IgnorePlurals.deserialize] at h
  | obj ms => simp [IgnorePlurals.deserialize] at h

/-- A decoded `SortFacetValuesBy` re-encodes to the shape it was parsed from. -/
theorem sortFacetValuesBy_shape_preserved (j : Json) (v : SortFacetValuesBy)
    (h : SortFacetValuesBy.deserialize j = .ok v) :
    (SortFacetValuesBy.serialize v).shapeCat = j.shapeCat := by
  cases j with
  | str s => cases v <;> rfl
  | null => simp [SortFacetValuesBy.deserialize] at h
  | bool b => simp [SortFacetValuesBy.deserialize] at h
  | num n => simp [SortFacetValuesBy.deserialize] at h
  | arr es => simp [SortFacetValuesBy.deserialize] at h
  | obj ms => simp [SortFacetValuesBy.deserialize] at h

/-- A decoded `QueryType` re-encodes to the shape it was parsed from. -/
theorem queryType_shape_preserved (j : Json) (v : QueryType)
    (h : QueryType.deserialize j = .ok v) :
    (QueryType.serialize v).shapeCat = j.shapeCat := by
  cases j with
  | str s => cases v <;> rfl
  | null => simp [QueryType.deserialize] at h
  | bool b => simp [QueryType.deserialize] at h
  | num n => simp [QueryType.deserialize] at h
  | arr es => simp [QueryType.deserialize] at h
  | obj ms => simp [QueryType.deserialize] at h

/-- A decoded `RemoveWordsIfNoResults` re-encodes to its parsed shape. -/
theorem removeWordsIfNoResults_shape_preserved (j : Json) (v : RemoveWordsIfNoResults)
    (h : RemoveWordsIfNoResults.deserialize j = .ok v) :
    (RemoveWordsIfNoResults.serialize v).shapeCat = j.shapeCat := by
  cases j with
  | str s => cases v <;> rfl
  | null => simp [RemoveWordsIfNoResults.deserialize] at h
  | bool b => simp [RemoveWordsIfNoResults.deserialize] at h
  | num n => simp [RemoveWordsIfNoResults.deserialize] at h
  | arr es => simp [RemoveWordsIfNoResults.deserialize] at h
  | obj ms => simp [RemoveWordsIfNoResults.deserialize] at h

/-- A decoded `ExactOnSingleWordQuery` re-encodes to its parsed shape. -/
theorem exactOnSingleWordQuery_shape_preserved (j : Json) (v : ExactOnSingleWordQuery)
    (h : ExactOnSingleWordQuery.deserialize j = .ok v) :
    (ExactOnSingleWordQuery.serialize v).shapeCat = j.shapeCat := by
  cases j with
  | str s => cases v <;> rfl
  | null => simp [ExactOnSingleWordQuery.deserialize] at h
  | bool b => simp [ExactOnSingleWordQuery.deserialize] at h
  | num n => simp [ExactOnSingleWordQuery.deserialize] at h
  | arr es => simp [ExactOnSingleWordQuery.deserialize] at h
  | obj ms => simp [ExactOnSingleWordQuery.deserialize] at h

/-- A decoded `AlternativesAsExact` re-encodes to its parsed shape. -/
theorem alternativesAsExact_shape_preserved (j : Json) (v : AlternativesAsExact)
    (h : AlternativesAsExact.deserialize j = .ok v) :
    (AlternativesAsExact.serialize v).shapeCat = j.shapeCat := by
  cases j with
  | str s => cases v <;> rfl
  | null => simp [AlternativesAsExact.deserialize] at h
  | bool b => simp [AlternativesAsExact.deserialize] at h
  | num n => simp [AlternativesAsExact.deserialize] at h
  | arr es => simp [AlternativesAsExact.deserialize] at h
  | obj ms => simp [AlternativesAsExact.deserialize] at h


/-! ## Claims -/

/-- C1: for every constructible variant of each supported polymorphic field
type — `AroundRadius`, `TypoTolerance`, `IgnorePlurals`, and the closed
string enumerations (`SortFacetValuesBy`, `QueryType`,
`RemoveWordsIfNoResults`, `ExactOnSingleWordQuery`, `AlternativesAsExact`) —
decoding the wire value produced by encoding the variant yields the variant
again, and any decoded value re-encodes to a wire value of the identical
shape category (boolean, string, integer, or array) it was parsed from. -/
theorem polymorphic_field_roundtrip_and_shape :
    (∀ v : AroundRadius, AroundRadius.deserialize (AroundRadius.serialize v) = .ok v) ∧
    (∀ v : TypoTolerance, TypoTolerance.deserialize (TypoTolerance.serialize v) = .ok v) ∧
    (∀ v : IgnorePlurals, IgnorePlurals.deserialize (IgnorePlurals.serialize v) = .ok v) ∧
    (∀ v : SortFacetValuesBy, SortFacetValuesBy.deserialize (SortFacetValuesBy.serialize v) = .ok v) ∧
    (∀ v : QueryType, QueryType.deserialize (QueryType.serialize v) = .ok v) ∧
    (∀ v : RemoveWordsIfNoResults,
      RemoveWordsIfNoResults.deserialize (RemoveWordsIfNoResults.serialize v) = .ok v) ∧
    (∀ v : ExactOnSingleWordQuery,
      ExactOnSingleWordQuery.deserialize (ExactOnSingleWordQuery.serialize v) = .ok v) ∧
    (∀ v : AlternativesAsExact,
      AlternativesAsExact.deserialize (AlternativesAsExact.serialize v) = .ok v) ∧
    (∀ (j : Json) (v : AroundRadius), AroundRadius.deserialize j = .ok v →
      (AroundRadius.serialize v).shapeCat = j.shapeCat) ∧
    (∀ (j : Json) (v : TypoTolerance), TypoTolerance.deserialize j = .ok v →
      (TypoTolerance.serialize v).shapeCat = j.shapeCat) ∧
    (∀ (j : Json) (v : IgnorePlurals), IgnorePlurals.deserialize j = .ok v →
      (IgnorePlurals.serialize v).shapeCat = j.shapeCat) ∧
    (∀ (j : Json) (v : SortFacetValuesBy), SortFacetValuesBy.deserialize j = .ok v →
      (SortFacetValuesBy.serialize v).shapeCat = j.shapeCat) ∧
    (∀ (j : Json) (v : QueryType), QueryType.deserialize j = .ok v →
      (QueryType.serialize v).shapeCat = j.shapeCat) ∧
    (∀ (j : Json) (v : RemoveWordsIfNoResults), RemoveWordsIfNoResults.deserialize j = .ok v →
      (RemoveWordsIfNoResults.serialize v).shapeCat = j.shapeCat) ∧
    (∀ (j : Json) (v : ExactOnSingleWordQuery), ExactOnSingleWordQuery.deserialize j = .ok v →
      (ExactOnSingleWordQuery.serialize v).shapeCat = j.shapeCat) ∧
    (∀ (j : Json) (v : AlternativesAsExact), AlternativesAsExact.deserialize j = .ok v →
      (AlternativesAsExact.serialize v).shapeCat = j.shapeCat) :=
  ⟨aroundRadius_roundtrip, typoTolerance_roundtrip,
   ignorePlurals_roundtrip, sortFacetValuesBy_roundtrip,
   queryType_roundtrip, removeWordsIfNoResults_roundtrip,
   exactOnSingleWordQuery_roundtrip, alternativesAsExact_roundtrip,
   aroundRadius_shape_preserved, typoTolerance_shape_preserved,
   ignorePlurals_shape_preserved, sortFacetValuesBy_shape_preserved,
   queryType_shape_preserved, removeWordsIfNoResults_shape_preserved,
   exactOnSingleWordQuery_shape_preserved, alternativesAsExact_shape_preserved⟩

/-- C1 witness: the shape-preservation component applied at the concrete
decode `"all" ↝ AroundRadius.All`, whose hypothesis holds by computation. -/
theorem polymorphic_field_roundtrip_and_shape_witness :
    (AroundRadius.serialize AroundRadius.All).shapeCat = (Json.str "all").shapeCat :=
  polymorphic_field_roundtrip_and_shape.2.2.2.2.2.2.2.2.1
    (Json.str "all") AroundRadius.All rfl

/-- C5: `AroundRadius` (the spec's `AllOrRadius`) encodes `All` to the
literal string `"all"`, encodes `Radius(20)` to the bare integer `20`, and
rejects the string `"unknown"` with exactly the message
`expected "all", got "unknown"`. -/
theorem aroundRadius_wire_examples :
    AroundRadius.serialize .All = Json.str "all" ∧
    AroundRadius.serialize (.Radius 20) = Json.num 20 ∧
    AroundRadius.deserialize (Json.str "unknown") =
      .error "expected \"all\", got \"unknown\"" :=
  ⟨rfl, rfl, rfl⟩

/-- C6: `TypoTolerance` encodes `Enabled`/`Disabled` to `true`/`false` and
`Min`/`Strict` to `"min"`/`"strict"`; decodes `true`/`false` back to
`Enabled`/`Disabled`; and rejects the string `"unknown"` with exactly the
message `expected "min" or "strict", got "unknown"`. -/
theorem typoTolerance_wire_examples :
    TypoTolerance.serialize .Enabled = Json.bool true ∧
    TypoTolerance.serialize .Disabled = Json.bool false ∧
    TypoTolerance.serialize .Min = Json.str "min" ∧
    TypoTolerance.serialize .Strict = Json.str "strict" ∧
    TypoTolerance.deserialize (Json.bool true) = .ok .Enabled ∧
    TypoTolerance.deserialize (Json.bool false) = .ok .Disabled ∧
    TypoTolerance.deserialize (Json.str "unknown") =
      .error "expected \"min\" or \"strict\", got \"unknown\"" :=
  ⟨rfl, rfl, rfl, rfl, rfl, rfl, rfl⟩

/-- C7: `IgnorePlurals` encodes `Languages(["fr"])` to the JSON array
`["fr"]`, decodes the array `["fr","en"]` to `Languages(["fr","en"])`, and
rejects a bare string with exactly the message
`invalid type: string "unknown", expected a bool or a list of ISO codes`. -/
theorem ignorePlurals_wire_examples :
    IgnorePlurals.serialize (.Languages ["fr"]) = Json.arr [Json.str "fr"] ∧
    IgnorePlurals.deserialize (Json.arr [Json.str "fr", Json.str "en"]) =
      .ok (.Languages ["fr", "en"]) ∧
    IgnorePlurals.deserialize (Json.str "unknown") =
      .error "invalid type: string \"unknown\", expected a bool or a list of ISO codes" :=
  ⟨rfl, rfl, rfl⟩


/-- `ixField` and `sqField` cells are set exactly when the field is. -/
theorem oneIfSome_ixField (name : String) (v : Option α) (enc : α → Json) :
    oneIfSome (ixField name v enc) = oneIfSome v := by
  cases v <;> rfl

/-- `sqField` analogue of `oneIfSome_ixField`. -/
theorem oneIfSome_sqField (name : String) (v : Option α)
    (enc : α → Except String String) :
    oneIfSome (sqField name v enc) = oneIfSome v := by
  cases v <;> rfl

/-- `encStrList` never encodes to `null`. -/
theorem encStrList_ne_null (x : List String) : encStrList x ≠ Json.null :=
  fun h => Json.noConfusion h

/-- `encNat` never encodes to `null`. -/
theorem encNat_ne_null (x : Nat) : encNat x ≠ Json.null :=
  fun h => Json.noConfusion h

/-- `encBool` never encodes to `null`. -/
theorem encBool_ne_null (x : Bool) : encBool x ≠ Json.null :=
  fun h => Json.noConfusion h

/-- `encStr` never encodes to `null`. -/
theorem encStr_ne_null (x : String) : encStr x ≠ Json.null :=
  fun h => Json.noConfusion h

/-- `encStrListMap` never encodes to `null`. -/
theorem encStrListMap_ne_null (x : List (String × List String)) :
    encStrListMap x ≠ Json.null :=
  fun h => Json.noConfusion h

/-- `encAltSet` never encodes to `null`. -/
theorem encAltSet_ne_null (x : List AlternativesAsExact) : encAltSet x ≠ Json.null :=
  fun h => Json.noConfusion h

/-- `SortFacetValuesBy.serialize` never encodes to `null`. -/
theorem sortFacetValuesBy_serialize_ne_null (x : SortFacetValuesBy) :
    SortFacetValuesBy.serialize x ≠ Json.null := by
  cases x <;> exact fun h => Json.noConfusion h

/-- `TypoTolerance.serialize` never encodes to `null`. -/
theorem typoTolerance_serialize_ne_null (x : TypoTolerance) :
    TypoTolerance.serialize x ≠ Json.null := by
  cases x <;> exact fun h => Json.noConfusion h

/-- `IgnorePlurals.serialize` never encodes to `null`. -/
theorem ignorePlurals_serialize_ne_null (x : IgnorePlurals) :
    IgnorePlurals.serialize x ≠ Json.null := by
  cases x <;> exact fun h => Json.noConfusion h

/-- `RemoveWordsIfNoResults.serialize` never encodes to `null`. -/
theorem removeWordsIfNoResults_serialize_ne_null (x : RemoveWordsIfNoResults) :
    RemoveWordsIfNoResults.serialize x ≠ Json.null := by
  cases x <;> exact fun h => Json.noConfusion h

/-- `ExactOnSingleWordQuery.serialize` never encodes to `null`. -/
theorem exactOnSingleWordQuery_serialize_ne_null (x : ExactOnSingleWordQuery) :
    ExactOnSingleWordQuery.serialize x ≠ Json.null := by
  cases x <;> exact fun h => Json.noConfusion h

/-- `Distinct.serialize` never encodes to `null`. -/
theorem distinct_serialize_ne_null (x : Distinct) :
    Distinct.serialize x ≠ Json.null := by
  cases x <;> exact fun h => Json.noConfusion h

/-- `MinProximity.serialize` never encodes to `null`. -/
theorem minProximity_serialize_ne_null (x : MinProximity) :
    MinProximity.serialize x ≠ Json.null := by
  cases x <;> exact fun h => Json.noConfusion h

/-- Every serialized `IndexSettings` member holds a real encoded value:
no field ever serializes to a `null` placeholder. -/
theorem serializeFields_no_null (s : IndexSettings) :
    ∀ p ∈ IndexSettings.serializeFields s, p.2 ≠ Json.null := by
  intro p hp
  rw [IndexSettings.serializeFields, List.reduceOption_mem_iff] at hp
  simp only [IndexSettings.fieldList, List.mem_cons, List.not_mem_nil, or_false] at hp
  rcases hp with h|h|h|h|h|h|h|h|h|h|h|h|h|h|h|h|h|h|h|h|h|h|h|h|h|h|h|h|h|h|h|h|h|h|h|h|h|h|h|h|h|h|h|h|h|h|h
  · exact ixField_ne_null encStrList_ne_null h
  · exact ixField_ne_null encStrList_ne_null h
  · exact ixField_ne_null encStrList_ne_null h
  · exact ixField_ne_null encStrList_ne_null h
  · exact ixField_ne_null encStrList_ne_null h
  · exact ixField_ne_null encStrList_ne_null h
  · exact ixField_ne_null encStrList_ne_null h
  · exact ixField_ne_null encNat_ne_null h
  · exact ixField_ne_null sortFacetValuesBy_serialize_ne_null h
  · exact ixField_ne_null encStrList_ne_null h
  · exact ixField_ne_null encStrList_ne_null h
  · exact ixField_ne_null encStr_ne_null h
  · exact ixField_ne_null encStr_ne_null h
  · exact ixField_ne_null encStr_ne_null h
  · exact ixField_ne_null encBool_ne_null h
  · exact ixField_ne_null encNat_ne_null h
  · exact ixField_ne_null encNat_ne_null h
  · exact ixField_ne_null encNat_ne_null h
  · exact ixField_ne_null encNat_ne_null h
  · exact ixField_ne_null typoTolerance_serialize_ne_null h
  · exact ixField_ne_null encBool_ne_null h
  · exact ixField_ne_null encStrList_ne_null h
  · exact ixField_ne_null encStrList_ne_null h
  · exact ixField_ne_null encStr_ne_null h
  · exact ixField_ne_null ignorePlurals_serialize_ne_null h
  · exact ixField_ne_null ignorePlurals_serialize_ne_null h
  · exact ixField_ne_null encStrList_ne_null h
  · exact ixField_ne_null encStrListMap_ne_null h
  · exact ixField_ne_null encStr_ne_null h
  · exact ixField_ne_null encStrList_ne_null h
  · exact ixField_ne_null encStr_ne_null h
  · exact ixField_ne_null removeWordsIfNoResults_serialize_ne_null h
  · exact ixField_ne_null encBool_ne_null h
  · exact ixField_ne_null encStrList_ne_null h
  · exact ixField_ne_null encStrList_ne_null h
  · exact ixField_ne_null encStrList_ne_null h
  · exact ixField_ne_null exactOnSingleWordQuery_serialize_ne_null h
  · exact ixField_ne_null encAltSet_ne_null h
  · exact ixField_ne_null encBool_ne_null h
  · exact ixField_ne_null encStrList_ne_null h
  · exact ixField_ne_null encBool_ne_null h
  · exact ixField_ne_null encStr_ne_null h
  · exact ixField_ne_null distinct_serialize_ne_null h
  · exact ixField_ne_null encBool_ne_null h
  · exact ixField_ne_null minProximity_serialize_ne_null h
  · exact ixField_ne_null encStrList_ne_null h
  · exact ixField_ne_null encNat_ne_null h

/-- The url-encoded serialization emits exactly one pair per set field. -/
theorem SearchQuery.pairs_length (q : SearchQuery) :
    q.fieldList.reduceOption.length = q.countSet := by
  simp only [SearchQuery.fieldList, SearchQuery.countSet, reduceOption_length_cons,
    oneIfSome_sqField, List.reduceOption_nil, List.length_nil]
  omega

/-- The JSON serialization emits exactly one member per set field. -/
theorem IndexSettings.members_length (s : IndexSettings) :
    (IndexSettings.serializeFields s).length = s.countSet := by
  simp only [IndexSettings.serializeFields, IndexSettings.fieldList, IndexSettings.countSet,
    reduceOption_length_cons, oneIfSome_ixField, List.reduceOption_nil, List.length_nil]
  omega


/-- C2: a `SearchQuery` with zero fields set url-encodes to the empty
parameter string and a default `IndexSettings` serializes to the empty JSON
object; in general each serialization emits exactly one entry per set field
(so unset fields are omitted entirely), and no serialized `IndexSettings`
member is a `null` placeholder. -/
theorem empty_serialization_omits_unset :
    SearchQuery.urlParams SearchQuery.default = .ok "" ∧
    IndexSettings.serialize IndexSettings.default = Json.obj [] ∧
    (∀ q : SearchQuery, q.fieldList.reduceOption.length = q.countSet) ∧
    (∀ s : IndexSettings, (IndexSettings.serializeFields s).length = s.countSet) ∧
    (∀ s : IndexSettings, ∀ p ∈ IndexSettings.serializeFields s, p.2 ≠ Json.null) :=
  ⟨rfl, rfl, SearchQuery.pairs_length, IndexSettings.members_length,
   serializeFields_no_null⟩

/-- C2 witness: the no-null component at a concrete settings value with one
set field, whose membership hypothesis holds by computation. -/
theorem empty_serialization_omits_unset_witness :
    (("hitsPerPage", Json.num 30) : String × Json).2 ≠ Json.null :=
  empty_serialization_omits_unset.2.2.2.2 { hits_per_page := some 30 }
    ("hitsPerPage", Json.num 30) (List.mem_singleton.mpr rfl)

/-- C3: `From<&str>` builds a `SearchQuery` whose `query` field holds the
given string, with exactly one field set overall; the serialized parameter
list is exactly the single pair `query=<value>` and the parameter string is
exactly `query=<form-encoded value>`, with no other keys. -/
theorem fromStr_query_only :
    (∀ s : String, (SearchQuery.fromStr s).query = some s) ∧
    (∀ s : String, (SearchQuery.fromStr s).countSet = 1) ∧
    (∀ s : String, (SearchQuery.fromStr s).fieldList.reduceOption =
      [("query", Except.ok s)]) ∧
    (∀ s : String, SearchQuery.urlParams (SearchQuery.fromStr s) =
      .ok ("query=" ++ formEncode s)) :=
  ⟨fun _ => rfl, fun _ => rfl, fun _ => rfl, fun _ => rfl⟩

/-- C4: whenever the url encoder renders a `SearchQuery`'s set fields to a
pair list, the body `Index::search` posts is the JSON envelope whose single
member `params` holds the `&`-separated `key=value` parameter string — a
string, not a nested JSON object. -/
theorem search_body_params_envelope :
    ∀ (q : SearchQuery) (ps : List (String × String)),
      collectPairs q.fieldList.reduceOption = .ok ps →
      Index.searchBody q = .ok (Json.obj [("params", Json.str (joinParams ps))]) := by
  intro q ps h
  simp [Index.searchBody, SearchQuery.urlParams, h, Except.map, SearchQueryBody.serialize]

/-- C4 witness: the envelope at the one-field query built from `"Bernardo"`,
whose encoding hypothesis holds by computation. -/
theorem search_body_params_envelope_witness :
    Index.searchBody (SearchQuery.fromStr "Bernardo") =
      .ok (Json.obj [("params", Json.str (joinParams [("query", "Bernardo")]))]) :=
  search_body_params_envelope (SearchQuery.fromStr "Bernardo")
    [("query", "Bernardo")] rfl


/-- C8: every accepted literal of the closed string enumerations round-trips
through encode/decode, and decoding any string outside the accepted set
fails with the `invalid value: unknown <EnumName> variant: <value>, expected
a string for <EnumName>` message (shown literally for `"unknown"`). -/
theorem enum_str_closed_set :
    (∀ v : SortFacetValuesBy, SortFacetValuesBy.deserialize (SortFacetValuesBy.serialize v) = .ok v) ∧
    (∀ v : QueryType, QueryType.deserialize (QueryType.serialize v) = .ok v) ∧
    (∀ v : RemoveWordsIfNoResults,
      RemoveWordsIfNoResults.deserialize (RemoveWordsIfNoResults.serialize v) = .ok v) ∧
    (∀ v : ExactOnSingleWordQuery,
      ExactOnSingleWordQuery.deserialize (ExactOnSingleWordQuery.serialize v) = .ok v) ∧
    (∀ v : AlternativesAsExact,
      AlternativesAsExact.deserialize (AlternativesAsExact.serialize v) = .ok v) ∧
    (∀ s : String, s ∉ (["count", "alpha"] : List String) →
      SortFacetValuesBy.deserialize (Json.str s) = .error (enumStrErr "SortFacetValuesBy" s)) ∧
    (∀ s : String, s ∉ (["prefixLast", "prefixAll", "prefixNone"] : List String) →
      QueryType.deserialize (Json.str s) = .error (enumStrErr "QueryType" s)) ∧
    (∀ s : String, s ∉ (["none", "lastWords", "firstWords", "allOptions"] : List String) →
      RemoveWordsIfNoResults.deserialize (Json.str s) =
        .error (enumStrErr "RemoveWordsIfNoResults" s)) ∧
    (∀ s : String, s ∉ (["attribute", "none", "word"] : List String) →
      ExactOnSingleWordQuery.deserialize (Json.str s) =
        .error (enumStrErr "ExactOnSingleWordQuery" s)) ∧
    (∀ s : String,
      s ∉ (["ignorePlurals", "singleWordSynonym", "multiWordsSynonym"] : List String) →
      AlternativesAsExact.deserialize (Json.str s) =
        .error (enumStrErr "AlternativesAsExact" s)) ∧
    enumStrErr "QueryType" "unknown" =
      "invalid value: unknown QueryType variant: unknown, expected a string for QueryType" := by
  refine ⟨sortFacetValuesBy_roundtrip, queryType_roundtrip,
    removeWordsIfNoResults_roundtrip,
    exactOnSingleWordQuery_roundtrip,
    alternativesAsExact_roundtrip, ?_, ?_, ?_, ?_, ?_, rfl⟩
  · intro s h
    simp only [List.mem_cons, List.not_mem_nil, or_false, not_or] at h
    simp [SortFacetValuesBy.deserialize, h.1, h.2]
  · intro s h
    simp only [List.mem_cons, List.not_mem_nil, or_false, not_or] at h
    simp [QueryType.deserialize, h.1, h.2.1, h.2.2]
  · intro s h
    simp only [List.mem_cons, List.not_mem_nil, or_false, not_or] at h
    simp [RemoveWordsIfNoResults.deserialize, h.1, h.2.1, h.2.2.1, h.2.2.2]
  · intro s h
    simp only [List.mem_cons, List.not_mem_nil, or_false, not_or] at h
    simp [ExactOnSingleWordQuery.deserialize, h.1, h.2.1, h.2.2]
  · intro s h
    simp only [List.mem_cons, List.not_mem_nil, or_false, not_or] at h
    simp [AlternativesAsExact.deserialize, h.1, h.2.1, h.2.2]

/-- C8 witness: the `QueryType` rejection component at the string
`"unknown"`, whose not-a-literal hypothesis holds by computation. -/
theorem enum_str_closed_set_witness :
    QueryType.deserialize (Json.str "unknown") = .error (enumStrErr "QueryType" "unknown") :=
  enum_str_closed_set.2.2.2.2.2.2.1 "unknown" (by decide)

/-- C9: `Client::init_index` aborts (the embedding's `.error` is the
source's `panic!`, with its message) whenever the application id or the api
key is missing, and with both credentials present it always returns the
`Index` carrying exactly those credentials, the given index name, and the
derived base url. -/
theorem init_index_credentials :
    (∀ (c : Client) (n : String), c.application_id = none ∨ c.api_key = none →
      Client.init_index c n =
        .error "application_id and/or api_key are not initialized") ∧
    (∀ (app key n : String),
      Client.init_index ⟨some app, some key⟩ n =
        .ok { application_id := app, index_name := n, api_key := key,
              base_url := "https://" ++ app ++ "-dsn.algolia.net/1" }) := by
  constructor
  · intro c n h
    rcases h with h | h <;> simp [Client.init_index, h]
  · intro app key n
    rfl

/-- C9 witness: both components at concrete inputs — a client missing its
application id aborts, and `Client::new`'s credentials thread through. -/
theorem init_index_credentials_witness :
    Client.init_index ⟨none, some "key"⟩ "users" =
      .error "application_id and/or api_key are not initialized" ∧
    Client.init_index ⟨some "app", some "key"⟩ "users" =
      .ok { application_id := "app", index_name := "users", api_key := "key",
            base_url := "https://" ++ "app" ++ "-dsn.algolia.net/1" } :=
  ⟨init_index_credentials.1 ⟨none, some "key"⟩ "users" (Or.inl rfl),
   init_index_credentials.2 "app" "key" "users"⟩

/-- C10 (implicit): the `queryType` field of `IndexSettings` is a plain
optional string, so decoding a settings object whose `queryType` member
holds any string whatsoever — including strings outside the
`prefixLast`/`prefixAll`/`prefixNone` set — succeeds, whereas the
`QueryType`-typed field on `SearchQuery` rejects an unknown string. -/
theorem settings_query_type_plain_string :
    (∀ s : String, IndexSettings.deserialize (Json.obj [("queryType", Json.str s)]) =
      .ok { IndexSettings.default with query_type := some s }) ∧
    IndexSettings.deserialize (Json.obj [("queryType", Json.str "unknown")]) =
      .ok { IndexSettings.default with query_type := some "unknown" } ∧
    QueryType.deserialize (Json.str "unknown") =
      .error (enumStrErr "QueryType" "unknown") :=
  ⟨fun _ => rfl, rfl, rfl⟩

end Algolia
